import Mathlib

/-!
Verification development for the mock-interview session controller of the
Jambo repository.  The definitions below are a shallow embedding of the
TypeScript sources:

  * `src/services/interview-questions.ts` (question generation, durations),
  * `src/services/groq-interview.ts` (feedback generation and fallbacks),
  * the `TTSQueue` class (speech-synthesis queue),
  * `src/hooks/useInterview.ts` (the session state machine).

React semantics are embedded as follows: the component state is a record,
each `setState` call is a pure record update, mutable refs are extra fields
of a `Machine` record, and `useEffect` bodies run after the state update
that changed their dependencies.  JavaScript numbers that only ever hold
non-negative integers are modelled as `Nat`; the nullable feedback field is
an `Option`.  The external `JSON.parse` builtin is modelled by a smallish
executable JSON parser (`parseJson`) over integers, strings, arrays and
objects, which agrees with `JSON.parse` on the inputs relevant here.
-/

/-- Question categories of `InterviewQuestion.type` in interview-questions.ts. -/
inductive QType where
  | intro
  | technical
  | behavioral
  | situational
  | closing
deriving DecidableEq, Repr

/-- Embeds the `InterviewQuestion` interface of interview-questions.ts. -/
structure InterviewQuestion where
  id : String
  type : QType
  question : String
  followUp : Option String
deriving DecidableEq, Repr

/-- Embeds `INTERVIEW_DURATION = 5 * 60` of interview-questions.ts. -/
def INTERVIEW_DURATION : Nat := 5 * 60

/-- Embeds `QUESTION_DURATION = 60` of useInterview.ts. -/
def QUESTION_DURATION : Nat := 60

/-- Embeds `generateInterviewQuestions(companyName, roleName?)`; the optional
role argument defaults to "Software Engineer" when absent or empty, matching
the JavaScript expression `roleName || 'Software Engineer'` (the empty string
is falsy). -/
def generateInterviewQuestions (companyName : String) (roleName : Option String) :
    List InterviewQuestion :=
  let role := match roleName with
    | none => "Software Engineer"
    | some r => if r = "" then "Software Engineer" else r
  [ { id := "q1", type := QType.intro,
      question := "Hi! Welcome to your mock interview for " ++ companyName ++
        ". Let\x27s start with a quick introduction. Tell me about yourself and why you\x27re interested in the " ++
        role ++ " position at " ++ companyName ++ ".",
      followUp := none },
    { id := "q2", type := QType.technical,
      question := "Great! Now let\x27s talk about your technical skills. Can you describe a challenging technical problem you\x27ve solved recently and walk me through your approach?",
      followUp := some "What would you have done differently if you had more time?" },
    { id := "q3", type := QType.behavioral,
      question := "Tell me about a time when you had to work under pressure to meet a tight deadline. How did you handle it?",
      followUp := none },
    { id := "q4", type := QType.situational,
      question := "Imagine you\x27re working on a project and you realize the requirements have changed significantly. How would you handle this situation?",
      followUp := none },
    { id := "q5", type := QType.behavioral,
      question := "What do you know about " ++ companyName ++
        "\x27s products or services? Why do you think you\x27d be a good fit for the team here?",
      followUp := none },
    { id := "q6", type := QType.closing,
      question := "We\x27re almost at the end. Do you have any questions about the " ++
        role ++ " position or " ++ companyName ++ "?",
      followUp := none } ]

/-- Whitespace recognised by `String.prototype.trim` (the subset relevant to
the strings this code base manipulates). -/
def isJsSpace (c : Char) : Bool :=
  c == ' ' || c == '\t' || c == '\n' || c == '\r'

/-- Drops leading JavaScript whitespace from a character list. -/
def dropLeadingWs : List Char → List Char
  | [] => []
  | c :: cs => if isJsSpace c then dropLeadingWs cs else c :: cs

/-- Embeds `String.prototype.trim` (both ends). -/
def jsTrim (s : String) : String :=
  ⟨dropLeadingWs ((dropLeadingWs s.data.reverse).reverse)⟩

/-- Speakers of `ConversationTurn` in useInterview.ts. -/
inductive Speaker where
  | ai
  | user
deriving DecidableEq, Repr

/-- Embeds the `ConversationTurn` interface of useInterview.ts. -/
structure ConversationTurn where
  speaker : Speaker
  text : String
  timestamp : Nat
deriving DecidableEq, Repr

/-- Embeds one element of `userResponses` in useInterview.ts. -/
structure UserResponse where
  questionId : String
  response : String
deriving DecidableEq, Repr

/-- Embeds one element of `questionFeedback` in the `InterviewFeedback`
interface of groq-interview.ts. -/
structure FeedbackEntry where
  question : String
  userResponse : String
  feedback : String
deriving DecidableEq, Repr

/-- Embeds the `InterviewFeedback` interface of groq-interview.ts; the JS
number rating is modelled as an integer. -/
structure InterviewFeedback where
  overallRating : Int
  overallAssessment : String
  strengths : List String
  areasForImprovement : List String
  tipsForNextTime : List String
  questionFeedback : List FeedbackEntry
deriving DecidableEq, Repr

/-- Embeds the `FeedbackContext` interface of groq-interview.ts (the
conversation log does not influence any definition below and is omitted). -/
structure FeedbackContext where
  companyName : String
  roleName : String
  questions : List String
  responses : List String
deriving DecidableEq, Repr

/-- JSON values as produced by `JSON.parse` (numbers restricted to the
integers, which is all the feedback claims need). -/
inductive JsonValue where
  | null
  | bool (b : Bool)
  | num (n : Int)
  | str (s : String)
  | arr (elems : List JsonValue)
  | obj (fields : List (String × JsonValue))
deriving Repr

/-- Whitespace accepted between JSON tokens. -/
def isJsonWs (c : Char) : Bool :=
  c == ' ' || c == '\t' || c == '\n' || c == '\r'

/-- Skips JSON whitespace. -/
def skipJsonWs : List Char → List Char
  | [] => []
  | c :: cs => if isJsonWs c then skipJsonWs cs else c :: cs

/-- Tests whether `pat` is an initial segment of the second list. -/
def patMatches : List Char → List Char → Bool
  | [], _ => true
  | _ :: _, [] => false
  | p :: ps, c :: cs => (p == c) && patMatches ps cs

/-- Takes a maximal run of decimal digits. -/
def takeDigits : List Char → List Char × List Char
  | [] => ([], [])
  | c :: cs =>
    if c.isDigit then
      let r := takeDigits cs
      (c :: r.1, r.2)
    else ([], c :: cs)

/-- Converts a digit run to a natural number. -/
def digitsToNat (ds : List Char) : Nat :=
  ds.foldl (fun acc c => acc * 10 + (c.toNat - 48)) 0

/-- Parses the body of a JSON string after the opening quote, handling the
basic escapes; the fuel argument makes the recursion structural. -/
def parseStringBody : Nat → List Char → Option (List Char × List Char)
  | 0, _ => none
  | _ + 1, [] => none
  | fuel + 1, c :: cs =>
    if c == '"' then some ([], cs)
    else if c == '\\' then
      match cs with
      | [] => none
      | e :: cs2 =>
        let decoded : Option Char :=
          if e == '"' then some '"'
          else if e == '\\' then some '\\'
          else if e == '/' then some '/'
          else if e == 'n' then some '\n'
          else if e == 't' then some '\t'
          else if e == 'r' then some '\r'
          else none
        match decoded with
        | none => none
        | some d =>
          match parseStringBody fuel cs2 with
          | none => none
          | some (acc, rest) => some (d :: acc, rest)
    else
      match parseStringBody fuel cs with
      | none => none
      | some (acc, rest) => some (c :: acc, rest)

mutual

/-- Parses one JSON value; recursion is on the fuel. -/
def parseVal : Nat → List Char → Option (JsonValue × List Char)
  | 0, _ => none
  | fuel + 1, cs =>
    match skipJsonWs cs with
    | [] => none
    | c :: rest =>
      if c == 'n' then
        if patMatches "ull".data rest then some (JsonValue.null, rest.drop 3) else none
      else if c == 't' then
        if patMatches "rue".data rest then some (JsonValue.bool true, rest.drop 3) else none
      else if c == 'f' then
        if patMatches "alse".data rest then some (JsonValue.bool false, rest.drop 4) else none
      else if c == '"' then
        match parseStringBody (rest.length + 1) rest with
        | none => none
        | some (body, rest2) => some (JsonValue.str ⟨body⟩, rest2)
      else if c == '[' then
        match skipJsonWs rest with
        | ']' :: rest2 => some (JsonValue.arr [], rest2)
        | other =>
          match parseElems fuel other with
          | none => none
          | some (elems, rest2) => some (JsonValue.arr elems, rest2)
      else if c == '{' then
        match skipJsonWs rest with
        | '}' :: rest2 => some (JsonValue.obj [], rest2)
        | other =>
          match parseFields fuel other with
          | none => none
          | some (fields, rest2) => some (JsonValue.obj fields, rest2)
      else if c == '-' then
        match takeDigits rest with
        | ([], _) => none
        | (ds, rest2) => some (JsonValue.num (-(digitsToNat ds : Int)), rest2)
      else if c.isDigit then
        match takeDigits (c :: rest) with
        | ([], _) => none
        | (ds, rest2) => some (JsonValue.num (digitsToNat ds : Int), rest2)
      else none

/-- Parses a comma-separated list of JSON values up to the closing bracket. -/
def parseElems : Nat → List Char → Option (List JsonValue × List Char)
  | 0, _ => none
  | fuel + 1, cs =>
    match parseVal fuel cs with
    | none => none
    | some (v, rest) =>
      match skipJsonWs rest with
      | ',' :: rest2 =>
        match parseElems fuel rest2 with
        | none => none
        | some (vs, rest3) => some (v :: vs, rest3)
      | ']' :: rest2 => some ([v], rest2)
      | _ => none

/-- Parses a comma-separated list of JSON object members up to the closing
brace. -/
def parseFields : Nat → List Char → Option (List (String × JsonValue) × List Char)
  | 0, _ => none
  | fuel + 1, cs =>
    match skipJsonWs cs with
    | '"' :: rest =>
      match parseStringBody (rest.length + 1) rest with
      | none => none
      | some (key, rest2) =>
        match skipJsonWs rest2 with
        | ':' :: rest3 =>
          match parseVal fuel rest3 with
          | none => none
          | some (v, rest4) =>
            match skipJsonWs rest4 with
            | ',' :: rest5 =>
              match parseFields fuel rest5 with
              | none => none
              | some (fs, rest6) => some ((⟨key⟩, v) :: fs, rest6)
            | '}' :: rest5 => some ([(⟨key⟩, v)], rest5)
            | _ => none
        | _ => none
    | _ => none

end

/-- Embeds the `JSON.parse` builtin: parses a complete JSON document,
rejecting trailing garbage (`JSON.parse` throws there; the model returns
`none`). -/
def parseJson (s : String) : Option JsonValue :=
  match parseVal (s.data.length + 1) s.data with
  | none => none
  | some (v, rest) => if (skipJsonWs rest).isEmpty then some v else none

/-- Marker string used by `getDefaultFeedback` for an absent or empty
response. -/
def NO_RESPONSE_MARKER : String := "No response recorded"

/-- Per-entry response text of `getDefaultFeedback`: embeds the expression
`context.responses[i] || 'No response recorded'` (out-of-range indexing gives
`undefined` and the empty string is falsy, so both fall back to the marker). -/
def defaultEntryResponse (responses : List String) (i : Nat) : String :=
  let r := responses.getD i ""
  if r = "" then NO_RESPONSE_MARKER else r

/-- Canned per-question feedback line of `getDefaultFeedback`. -/
def DEFAULT_QF_TEXT : String :=
  "Continue practicing this type of question and focus on providing specific, relevant examples."

/-- Embeds the `questionFeedback` construction of `getDefaultFeedback`, a
`map` over the questions with the element index (written here as a plain
indexed recursion). -/
def defaultQuestionFeedback (responses : List String) : Nat → List String → List FeedbackEntry
  | _, [] => []
  | i, q :: qs =>
    { question := q,
      userResponse := defaultEntryResponse responses i,
      feedback := DEFAULT_QF_TEXT } :: defaultQuestionFeedback responses (i + 1) qs

/-- Embeds `getDefaultFeedback(context)` of groq-interview.ts, the
deterministic fallback report. -/
def getDefaultFeedback (ctx : FeedbackContext) : InterviewFeedback :=
  { overallRating := 7,
    overallAssessment := "Thank you for completing this mock interview for the " ++
      ctx.roleName ++ " position at " ++ ctx.companyName ++
      ". You showed preparation and engagement throughout the interview.",
    strengths :=
      [ "Demonstrated willingness to practice and improve",
        "Engaged with all interview questions",
        "Showed commitment to professional growth" ],
    areasForImprovement :=
      [ "Consider using the STAR method for behavioral questions",
        "Practice providing more specific examples",
        "Focus on quantifying your achievements where possible" ],
    tipsForNextTime :=
      [ "Research the company thoroughly before interviews",
        "Prepare 2-3 specific examples for common questions",
        "Practice your responses out loud to improve delivery" ],
    questionFeedback := defaultQuestionFeedback ctx.responses 0 ctx.questions }

/-- Removes every occurrence of `pat`, each together with one directly
following newline when present, scanning left to right: the semantics of
`content.replace(/PAT\n?/g, '')` for a literal pattern.  The fuel is the
input length plus one, so it never runs out. -/
def stripFenceAux (pat : List Char) : Nat → List Char → List Char
  | 0, cs => cs
  | _ + 1, [] => []
  | fuel + 1, c :: cs =>
    if patMatches pat (c :: cs) then
      let rest := (c :: cs).drop pat.length
      let rest2 := match rest with
        | '\n' :: r => r
        | _ => rest
      stripFenceAux pat fuel rest2
    else c :: stripFenceAux pat fuel cs

/-- Embeds the clean-up applied to the model output in
`generateInterviewFeedback`:
`content.replace(/```json\n?/g, '').replace(/```\n?/g, '').trim()`. -/
def cleanFeedbackContent (content : String) : String :=
  let step1 := stripFenceAux "```json".data (content.data.length + 1) content.data
  let step2 := stripFenceAux "```".data (step1.length + 1) step1
  jsTrim ⟨step2⟩

/-- Possible outcomes of the `fetch` call to the chat-completion backend, as
`generateInterviewFeedback` distinguishes them: no API key configured, a
non-2xx response, a thrown network error, or a 2xx response whose
`choices[0].message.content` is absent or carries the given raw text. -/
inductive GroqResult where
  | noApiKey
  | httpError (body : String)
  | networkError
  | ok (content : Option String)
deriving Repr

/-- Result of `generateInterviewFeedback` at the value level.  The
TypeScript source returns `JSON.parse(content) as InterviewFeedback`: the
`as` cast performs no runtime check, so the success path can hand back any
parsed JSON value; `unvalidated` records exactly that, while `structured`
is a value built by the local fallback constructor. -/
inductive FeedbackOutcome where
  | structured (fb : InterviewFeedback)
  | unvalidated (j : JsonValue)
deriving Repr

/-- Embeds `generateInterviewFeedback(context)` of groq-interview.ts as a
function of the backend call outcome.  Every failure branch returns the
deterministic fallback; a present response body is trimmed, rejected when
empty, cleaned of markdown fences, and fed to `JSON.parse`, whose successful
result is returned without further validation. -/
def generateInterviewFeedback (result : GroqResult) (ctx : FeedbackContext) :
    FeedbackOutcome :=
  match result with
  | GroqResult.noApiKey => FeedbackOutcome.structured (getDefaultFeedback ctx)
  | GroqResult.httpError _ => FeedbackOutcome.structured (getDefaultFeedback ctx)
  | GroqResult.networkError => FeedbackOutcome.structured (getDefaultFeedback ctx)
  | GroqResult.ok none => FeedbackOutcome.structured (getDefaultFeedback ctx)
  | GroqResult.ok (some raw) =>
    let content := jsTrim raw
    if content = "" then FeedbackOutcome.structured (getDefaultFeedback ctx)
    else
      match parseJson (cleanFeedbackContent content) with
      | some j => FeedbackOutcome.unvalidated j
      | none => FeedbackOutcome.structured (getDefaultFeedback ctx)

/-- Looks a key up in a JSON object field list. -/
def jsonLookup (key : String) : List (String × JsonValue) → Option JsonValue
  | [] => none
  | (k, v) :: rest => if k = key then some v else jsonLookup key rest

/-- Tests whether a JSON value is an array of strings. -/
def isStringArray : JsonValue → Bool
  | JsonValue.arr xs =>
    xs.all fun v => match v with
      | JsonValue.str _ => true
      | _ => false
  | _ => false

/-- Tests whether a JSON value has the shape of one `questionFeedback`
entry. -/
def isFeedbackEntryJson : JsonValue → Bool
  | JsonValue.obj fs =>
    (match jsonLookup "question" fs with
      | some (JsonValue.str _) => true
      | _ => false) &&
    (match jsonLookup "userResponse" fs with
      | some (JsonValue.str _) => true
      | _ => false) &&
    (match jsonLookup "feedback" fs with
      | some (JsonValue.str _) => true
      | _ => false)
  | _ => false

/-- Modelled from the spec: a well-formed structured feedback object per the
specification of the feedback report (overall rating 1-10, assessment text,
strengths, improvement areas, tips, per-question feedback); the source
performs no such structural validation, so this definition follows the
specification text and is compared against the code path. -/
def specWellFormedFeedback : JsonValue → Bool
  | JsonValue.obj fs =>
    (match jsonLookup "overallRating" fs with
      | some (JsonValue.num n) => decide (1 ≤ n) && decide (n ≤ 10)
      | _ => false) &&
    (match jsonLookup "overallAssessment" fs with
      | some (JsonValue.str _) => true
      | _ => false) &&
    (match jsonLookup "strengths" fs with
      | some v => isStringArray v
      | none => false) &&
    (match jsonLookup "areasForImprovement" fs with
      | some v => isStringArray v
      | none => false) &&
    (match jsonLookup "tipsForNextTime" fs with
      | some v => isStringArray v
      | none => false) &&
    (match jsonLookup "questionFeedback" fs with
      | some (JsonValue.arr entries) => entries.all isFeedbackEntryJson
      | _ => false)
  | _ => false

/-- Failure modes of the feedback backend call as the relevant claim lists
them: missing key, non-2xx response, network error, empty or missing
content, or an unparseable payload. -/
def feedbackCallFailed : GroqResult → Bool
  | GroqResult.noApiKey => true
  | GroqResult.httpError _ => true
  | GroqResult.networkError => true
  | GroqResult.ok none => true
  | GroqResult.ok (some raw) =>
    let content := jsTrim raw
    content == "" || (parseJson (cleanFeedbackContent content)).isNone

/-- Observable events of the `TTSQueue` class: the `onStart` callback, one
playback attempt per queued text (`speakAndPlay` succeeding or throwing, the
throw being caught and logged), and the `onEnd` callback. -/
inductive TTSEvent where
  | started
  | playedOk (text : String)
  | playFailed (text : String)
  | ended
deriving DecidableEq, Repr

/-- Private fields of the `TTSQueue` class. -/
structure TTSQueueState where
  queue : List String
  isPlaying : Bool
deriving DecidableEq, Repr

/-- Embeds the `while` loop of `TTSQueue.processQueue`: each item is shifted
and attempted; a `speakAndPlay` failure is caught inside the loop, so the
loop continues with the next item regardless of the outcome `ok`. -/
def processQueueLoop (ok : String → Bool) : List String → List TTSEvent
  | [] => []
  | t :: rest =>
    (if ok t then TTSEvent.playedOk t else TTSEvent.playFailed t) ::
      processQueueLoop ok rest

/-- Embeds `TTSQueue.processQueue`: returns immediately on an empty queue;
otherwise sets `isPlaying`, fires `onStart`, attempts every queued item in
order, resets `isPlaying` and fires `onEnd`.  The parameter `ok` gives each
item's playback outcome. -/
def processQueue (ok : String → Bool) (st : TTSQueueState) :
    TTSQueueState × List TTSEvent :=
  if st.queue.isEmpty then (st, [])
  else
    ({ queue := [], isPlaying := false },
      TTSEvent.started :: (processQueueLoop ok st.queue ++ [TTSEvent.ended]))

/-- Embeds `TTSQueue.add(text)`: pushes the text and, when idle, starts
processing the queue. -/
def ttsAdd (ok : String → Bool) (text : String) (st : TTSQueueState) :
    TTSQueueState × List TTSEvent :=
  let pushed : TTSQueueState := { st with queue := st.queue ++ [text] }
  if st.isPlaying then (pushed, []) else processQueue ok pushed

/-- Embeds `TTSQueue.clear()`: discards the queued texts. -/
def ttsClear (st : TTSQueueState) : TTSQueueState :=
  { st with queue := [] }

/-- Texts attempted in a TTS event trace, failures included, in order. -/
def attemptedTexts : List TTSEvent → List String
  | [] => []
  | TTSEvent.playedOk t :: rest => t :: attemptedTexts rest
  | TTSEvent.playFailed t :: rest => t :: attemptedTexts rest
  | TTSEvent.started :: rest => attemptedTexts rest
  | TTSEvent.ended :: rest => attemptedTexts rest

/-- Embeds the `InterviewState` record of useInterview.ts (the React
`useState` value). -/
structure InterviewState where
  isActive : Bool
  isPaused : Bool
  isComplete : Bool
  currentQuestionIndex : Nat
  timeRemaining : Nat
  companyName : String
  roleName : String
  questions : List InterviewQuestion
  currentTranscript : String
  userResponses : List UserResponse
  aiSpeaking : Bool
  error : Option String
  questionTimeLeft : Nat
  conversation : List ConversationTurn
  feedback : Option InterviewFeedback
  isGeneratingFeedback : Bool
deriving Repr

/-- Embeds the whole hook instance: the React state plus the mutable refs of
useInterview.ts, whether the two `setInterval` timers are installed, the
pending `setTimeout` callbacks, and the interaction with collaborators that
the claims observe (`ttsQueued` is the current content of the TTS queue,
`ttsAll` every text ever added to it, `feedbackRequests` the number of
`generateInterviewFeedback` calls issued). -/
structure Machine where
  state : InterviewState
  isAdvancing : Bool
  hasRespondedToCurrentSpeech : Bool
  lastTranscript : String
  questionTimerRunning : Bool
  pendingAdvanceTimeout : Bool
  pendingStartTimeout : Bool
  ttsQueued : List String
  ttsAll : List String
  feedbackRequests : Nat
deriving Repr

/-- Initial `useState` value of useInterview.ts. -/
def initialInterviewState : InterviewState :=
  { isActive := false,
    isPaused := false,
    isComplete := false,
    currentQuestionIndex := 0,
    timeRemaining := INTERVIEW_DURATION,
    companyName := "",
    roleName := "",
    questions := [],
    currentTranscript := "",
    userResponses := [],
    aiSpeaking := false,
    error := none,
    questionTimeLeft := QUESTION_DURATION,
    conversation := [],
    feedback := none,
    isGeneratingFeedback := false }

/-- Machine at mount time: initial state, refs `false`/empty, no timers, an
empty TTS queue and no feedback request issued. -/
def initialMachine : Machine :=
  { state := initialInterviewState,
    isAdvancing := false,
    hasRespondedToCurrentSpeech := false,
    lastTranscript := "",
    questionTimerRunning := false,
    pendingAdvanceTimeout := false,
    pendingStartTimeout := false,
    ttsQueued := [],
    ttsAll := [],
    feedbackRequests := 0 }

/-- Adds a text to the hook's TTS queue (`ttsQueueRef.current?.add(...)`),
also recording it in the audit list `ttsAll`. -/
def machineTTSAdd (text : String) (m : Machine) : Machine :=
  { m with ttsQueued := m.ttsQueued ++ [text], ttsAll := m.ttsAll ++ [text] }

/-- Embeds `startQuestionTimer` of useInterview.ts: clears any previous
question interval, resets `questionTimeLeft` to `QUESTION_DURATION` and
installs a fresh one-second interval.  The reset makes the auto-advance
effect's `questionTimeLeft === 0` guard false, so no effect fires on this
update. -/
def startQuestionTimer (m : Machine) : Machine :=
  { m with
    state := { m.state with questionTimeLeft := QUESTION_DURATION },
    questionTimerRunning := true }

/-- Conclusion line spoken by `finishInterview`. -/
def CONCLUSION_TEXT : String :=
  "That concludes our interview. Let me prepare your feedback..."

/-- Embeds `finishInterview` of useInterview.ts up to its `await`: stops
recognition and both intervals, clears the TTS queue, marks the session
complete with the feedback-generation flag set, speaks the conclusion line
and issues a feedback request (whose resolution is the separate
`feedbackResolved`/`feedbackFailed` event).  Its state update sets
`isActive := false`, so neither the finish-at-zero effect nor the
auto-advance effect can fire on it. -/
def finishInterview (m : Machine) : Machine :=
  let m1 : Machine :=
    { m with
      ttsQueued := [],
      questionTimerRunning := false,
      state := { m.state with
        isActive := false,
        isComplete := true,
        aiSpeaking := false,
        isGeneratingFeedback := true } }
  let m2 := machineTTSAdd CONCLUSION_TEXT m1
  { m2 with feedbackRequests := m2.feedbackRequests + 1 }

/-- Embeds `advanceToNextQuestion(timeRanOut)` of useInterview.ts: clears the
question interval and the response timer, records the trimmed transcript as
the response to the current question, then either finishes the interview
(when no questions remain) or speaks a transition remark plus the next
question, moves the index forward, resets the per-question state and arms
the one-second timeout that later clears the advance guard and restarts the
question timer.  Neither of its state updates re-triggers an effect: the
response append changes no effect dependency, and the index update sets
`questionTimeLeft` to the non-zero `QUESTION_DURATION`. -/
def advanceToNextQuestion (timeRanOut : Bool) (now : Nat) (m : Machine) : Machine :=
  let s := m.state
  let currentQuestion := s.questions.get? s.currentQuestionIndex
  let nextIndex := s.currentQuestionIndex + 1
  let userTranscript := jsTrim s.currentTranscript
  let recordedId := match currentQuestion with
    | some q => if q.id = "" then "" else q.id
    | none => ""
  let m1 : Machine :=
    { m with
      questionTimerRunning := false,
      state := { s with
        userResponses := s.userResponses ++
          [{ questionId := recordedId, response := userTranscript }] } }
  if nextIndex ≥ s.questions.length then
    finishInterview m1
  else
    match s.questions.get? nextIndex with
    | none => m1
    | some nextQ =>
      let transitionMessage :=
        if timeRanOut then "Alright, let\x27s move on to the next question."
        else "Great, let\x27s continue."
      let fullMessage := transitionMessage ++ " " ++ nextQ.question
      let m2 := machineTTSAdd fullMessage m1
      { m2 with
        state := { m2.state with
          currentQuestionIndex := nextIndex,
          currentTranscript := "",
          questionTimeLeft := QUESTION_DURATION,
          conversation := m2.state.conversation ++
            [{ speaker := Speaker.ai, text := nextQ.question, timestamp := now }] },
        hasRespondedToCurrentSpeech := false,
        lastTranscript := "",
        pendingAdvanceTimeout := true }

/-- Embeds `nextQuestion` of useInterview.ts: the in-flight guard makes the
call a no-op while an advance is pending; otherwise it sets the guard and
advances with `timeRanOut = false`. -/
def nextQuestion (now : Nat) (m : Machine) : Machine :=
  if m.isAdvancing then m
  else advanceToNextQuestion false now { m with isAdvancing := true }

/-- Embeds the body of the auto-advance effect of useInterview.ts, which
runs after a state update that changed `questionTimeLeft`, `isActive` or
`aiSpeaking`: when the question clock shows zero during an active session
with the AI silent and no advance in flight, it sets the guard and advances
with `timeRanOut = true`. -/
def autoAdvanceEffect (now : Nat) (m : Machine) : Machine :=
  if m.state.isActive && !m.state.aiSpeaking &&
      (m.state.questionTimeLeft == 0) && !m.isAdvancing then
    advanceToNextQuestion true now { m with isAdvancing := true }
  else m

/-- Embeds the `setState` body of the main interview interval of
useInterview.ts: one second elapses; at one second left the update zeroes
the clock and also sets `isActive := false`. -/
def sessionTickUpdate (s : InterviewState) : InterviewState :=
  if s.timeRemaining ≤ 1 then { s with timeRemaining := 0, isActive := false }
  else { s with timeRemaining := s.timeRemaining - 1 }

/-- Embeds the body of the finish-at-zero effect of useInterview.ts, which
runs after a state update that changed `timeRemaining` or `isActive`: it
calls `finishInterview` only when the session is still active with the
session clock at zero. -/
def finishAtZeroEffect (m : Machine) : Machine :=
  if m.state.isActive && (m.state.timeRemaining == 0) then finishInterview m
  else m

/-- One firing of the main interview interval: the interval only exists
while the session is active, unpaused and the clock positive (the effect at
its dependencies installs and clears it); after the state update the
finish-at-zero effect runs. -/
def sessionTick (m : Machine) : Machine :=
  if m.state.isActive && !m.state.isPaused && decide (0 < m.state.timeRemaining) then
    finishAtZeroEffect { m with state := sessionTickUpdate m.state }
  else m

/-- Embeds the `setState` body of the question interval of useInterview.ts:
the question clock counts down and floors at zero. -/
def questionTickUpdate (s : InterviewState) : InterviewState :=
  if s.questionTimeLeft ≤ 1 then { s with questionTimeLeft := 0 }
  else { s with questionTimeLeft := s.questionTimeLeft - 1 }

/-- One firing of the question interval: only fires while the interval is
installed; after the state update the auto-advance effect runs. -/
def questionTick (now : Nat) (m : Machine) : Machine :=
  if m.questionTimerRunning then
    autoAdvanceEffect now { m with state := questionTickUpdate m.state }
  else m

/-- Embeds `pauseInterview` of useInterview.ts: sets `isPaused`, stops
recognition, clears the question interval and the response timer.  The
update changes no dependency of the two effects. -/
def pauseInterview (m : Machine) : Machine :=
  { m with
    state := { m.state with isPaused := true },
    questionTimerRunning := false }

/-- Embeds `resumeInterview` of useInterview.ts: clears `isPaused`, restarts
the question timer (which resets `questionTimeLeft` to `QUESTION_DURATION`)
and restarts recognition. -/
def resumeInterview (m : Machine) : Machine :=
  startQuestionTimer { m with state := { m.state with isPaused := false } }

/-- Introductory utterance of `startInterview`, combining the welcome line
and the first question. -/
def introUtterance (companyName roleResolved firstQuestion : String) : String :=
  "Welcome! I\x27m your AI interviewer for the " ++ roleResolved ++
    " position at " ++ companyName ++
    ". We\x27ll have about 60 seconds per question, so take your time to answer. Let\x27s begin. " ++
    firstQuestion

/-- Embeds `startInterview(companyName, roleName?)` of useInterview.ts:
resolves the role (empty or absent falls back to "Software Engineer"),
generates the fixed questions, resets the refs, replaces the state with a
fresh active session, and - the question list being non-empty - enqueues the
introductory utterance, appends it to the conversation log and arms the
timeout that will start the question timer.  Speech recognition start-up is
not observed by any claim and is omitted. -/
def startInterview (companyName : String) (roleName : Option String) (now : Nat)
    (m : Machine) : Machine :=
  let role := match roleName with
    | none => "Software Engineer"
    | some r => if r = "" then "Software Engineer" else r
  let questions := generateInterviewQuestions companyName (some role)
  let m1 : Machine :=
    { m with
      isAdvancing := false,
      hasRespondedToCurrentSpeech := false,
      lastTranscript := "",
      state := { initialInterviewState with
        isActive := true,
        timeRemaining := INTERVIEW_DURATION,
        companyName := companyName,
        roleName := role,
        questions := questions,
        questionTimeLeft := QUESTION_DURATION } }
  match questions.head? with
  | none => m1
  | some q0 =>
    let intro := introUtterance companyName role q0.question
    let m2 := machineTTSAdd intro m1
    { m2 with
      state := { m2.state with
        conversation := [{ speaker := Speaker.ai, text := intro, timestamp := now }] },
      pendingStartTimeout := true }

/-- Embeds `endInterview` of useInterview.ts, which just delegates to
`finishInterview`. -/
def endInterview (m : Machine) : Machine :=
  finishInterview m

/-- Firing of the one-second timeout armed by `advanceToNextQuestion`:
clears the in-flight advance guard and restarts the question timer. -/
def advanceTimeoutFires (m : Machine) : Machine :=
  if m.pendingAdvanceTimeout then
    startQuestionTimer { m with pendingAdvanceTimeout := false, isAdvancing := false }
  else m

/-- Firing of the half-second timeout armed by `startInterview`: starts the
question timer. -/
def startTimeoutFires (m : Machine) : Machine :=
  if m.pendingStartTimeout then
    startQuestionTimer { m with pendingStartTimeout := false }
  else m

/-- Resolution of the awaited `generateInterviewFeedback` call in
`finishInterview`: stores the feedback and clears the generating flag. -/
def feedbackResolves (fb : InterviewFeedback) (m : Machine) : Machine :=
  { m with state := { m.state with feedback := some fb, isGeneratingFeedback := false } }

/-- Rejection of the awaited feedback call (the `catch` branch of
`finishInterview`): clears the generating flag and records the error
message. -/
def feedbackFails (m : Machine) : Machine :=
  { m with state := { m.state with
      isGeneratingFeedback := false,
      error := some "Failed to generate feedback" } }

/-- Embeds the `onStart` callback the hook installs on its TTS queue: marks
the AI as speaking and cancels the response timer.  `aiSpeaking := true`
falsifies the auto-advance guard, so no effect fires. -/
def ttsOnStart (m : Machine) : Machine :=
  { m with state := { m.state with aiSpeaking := true } }

/-- Embeds the `onEnd` callback the hook installs on its TTS queue: marks
the AI silent and clears the responded flag; `aiSpeaking` is a dependency of
the auto-advance effect, which therefore runs afterwards. -/
def ttsOnEnd (now : Nat) (m : Machine) : Machine :=
  autoAdvanceEffect now
    { m with
      state := { m.state with aiSpeaking := false },
      hasRespondedToCurrentSpeech := false }

/-- Embeds a final-transcript event of the recognition adapter: the hook
appends the segment to `currentTranscript` (the subsequent conversational
reply scheduling touches only the response timer, which no claim observes). -/
def transcriptFinal (text : String) (m : Machine) : Machine :=
  { m with state := { m.state with
      currentTranscript := m.state.currentTranscript ++ " " ++ text } }

/-- Discrete events that drive the controller. -/
inductive Event where
  | start (companyName : String) (roleName : Option String) (now : Nat)
  | sessionTickE
  | questionTickE (now : Nat)
  | userNext (now : Nat)
  | pause
  | resume
  | finishE
  | advanceTimeout
  | startTimeout
  | feedbackResolved (fb : InterviewFeedback)
  | feedbackFailed
  | ttsStarted
  | ttsEnded (now : Nat)
  | transcript (text : String)

/-- Event dispatch for the controller. -/
def step : Event → Machine → Machine
  | Event.start c r now, m => startInterview c r now m
  | Event.sessionTickE, m => sessionTick m
  | Event.questionTickE now, m => questionTick now m
  | Event.userNext now, m => nextQuestion now m
  | Event.pause, m => pauseInterview m
  | Event.resume, m => resumeInterview m
  | Event.finishE, m => endInterview m
  | Event.advanceTimeout, m => advanceTimeoutFires m
  | Event.startTimeout, m => startTimeoutFires m
  | Event.feedbackResolved fb, m => feedbackResolves fb m
  | Event.feedbackFailed, m => feedbackFails m
  | Event.ttsStarted, m => ttsOnStart m
  | Event.ttsEnded now, m => ttsOnEnd now m
  | Event.transcript t, m => transcriptFinal t m

/-- One response recorded per completed question: the invariant relating the
response list to the question index while the session is active. -/
def responsesInvariant (m : Machine) : Prop :=
  m.state.isActive = true →
    m.state.userResponses.length = m.state.currentQuestionIndex

instance (m : Machine) : Decidable (responsesInvariant m) := by
  unfold responsesInvariant
  infer_instance

/-- Finishing deactivates the session in its own state update. -/
theorem finish_not_active (m : Machine) : (finishInterview m).state.isActive = false := by
  simp [finishInterview, machineTTSAdd]

/-- The advance guard ref is never written by `advanceToNextQuestion` itself
(only its one-second timeout clears it, and only its callers set it). -/
theorem advance_isAdvancing (t : Bool) (now : Nat) (m : Machine) :
    (advanceToNextQuestion t now m).isAdvancing = m.isAdvancing := by
  simp only [advanceToNextQuestion]
  split
  · simp [finishInterview, machineTTSAdd]
  · split <;> simp [machineTTSAdd]

/-- Shape of an advance that still has questions left: one response is
appended, the index moves one forward, the question clock is reset, and
neither the activity flag nor the advance guard changes. -/
theorem advance_not_last_facts (t : Bool) (now : Nat) (m : Machine)
    (h : m.state.currentQuestionIndex + 1 < m.state.questions.length) :
    (advanceToNextQuestion t now m).state.userResponses.length =
        m.state.userResponses.length + 1 ∧
    (advanceToNextQuestion t now m).state.currentQuestionIndex =
        m.state.currentQuestionIndex + 1 ∧
    (advanceToNextQuestion t now m).state.questionTimeLeft = QUESTION_DURATION ∧
    (advanceToNextQuestion t now m).state.isActive = m.state.isActive ∧
    (advanceToNextQuestion t now m).state.isComplete = m.state.isComplete := by
  simp only [advanceToNextQuestion]
  split
  · omega
  · split
    · rename_i hnone
      rw [List.get?_eq_none] at hnone
      omega
    · simp [machineTTSAdd]

/-- The responses invariant survives `finishInterview` (vacuously: the
session is no longer active). -/
theorem finish_inv (m : Machine) : responsesInvariant (finishInterview m) := by
  intro ha
  rw [finish_not_active] at ha
  exact absurd ha (by simp)

/-- The responses invariant survives `advanceToNextQuestion`. -/
theorem advance_inv (t : Bool) (now : Nat) (m : Machine)
    (h : responsesInvariant m) :
    responsesInvariant (advanceToNextQuestion t now m) := by
  by_cases hlt : m.state.currentQuestionIndex + 1 < m.state.questions.length
  · intro ha
    have f := advance_not_last_facts t now m hlt
    rw [f.2.2.2.1] at ha
    rw [f.1, f.2.1, h ha]
  · intro ha
    have hin : (advanceToNextQuestion t now m).state.isActive = false := by
      simp only [advanceToNextQuestion]
      rw [if_pos (by omega)]
      exact finish_not_active _
    rw [hin] at ha
    exact absurd ha (by simp)

/-- The responses invariant survives the auto-advance effect. -/
theorem autoAdvance_inv (now : Nat) (m : Machine) (h : responsesInvariant m) :
    responsesInvariant (autoAdvanceEffect now m) := by
  unfold autoAdvanceEffect
  split
  · exact advance_inv _ _ _ h
  · exact h

/-- The responses invariant survives the finish-at-zero effect. -/
theorem finishAtZero_inv (m : Machine) (h : responsesInvariant m) :
    responsesInvariant (finishAtZeroEffect m) := by
  unfold finishAtZeroEffect
  split
  · exact finish_inv _
  · exact h

/-- The responses invariant survives the session-tick state update. -/
theorem sessionTickUpdate_inv (m : Machine) (h : responsesInvariant m) :
    responsesInvariant { m with state := sessionTickUpdate m.state } := by
  intro ha
  by_cases htr : m.state.timeRemaining ≤ 1
  · simp [sessionTickUpdate, htr] at ha
  · simp [sessionTickUpdate, htr] at ha ⊢
    exact h ha

/-- The responses invariant survives the question-tick state update. -/
theorem questionTickUpdate_inv (m : Machine) (h : responsesInvariant m) :
    responsesInvariant { m with state := questionTickUpdate m.state } := by
  intro ha
  by_cases hq : m.state.questionTimeLeft ≤ 1
  · simp [questionTickUpdate, hq] at ha ⊢
    exact h ha
  · simp [questionTickUpdate, hq] at ha ⊢
    exact h ha

/-- Active, unpaused session one second before the session clock runs out
(the state a session started with `start("Acme", "Backend Engineer")`
reaches after 299 session ticks). -/
def c1Machine : Machine :=
  { initialMachine with
    state := { initialInterviewState with
      isActive := true,
      timeRemaining := 1,
      companyName := "Acme",
      roleName := "Backend Engineer",
      questions := generateInterviewQuestions "Acme" (some "Backend Engineer") },
    questionTimerRunning := true }

/-- The same session 180 seconds earlier. -/
def c1MidMachine : Machine :=
  { c1Machine with state := { c1Machine.state with timeRemaining := 120 } }

/-- Claim C1 (code bug, evaluated at the failing input): mid-session the
tick does decrement the session clock by one second, but on the tick that
reaches zero the very same state update also sets `isActive := false`, so
the finish-at-zero effect - whose guard requires the session to still be
active - never calls `finishInterview`: no conclusion utterance is queued,
no feedback request is issued, and the session ends inactive yet not
complete, instead of transitioning to Complete as claimed. -/
theorem sessionTick_reaching_zero_never_finishes :
    (sessionTick c1MidMachine).state.timeRemaining = 119 ∧
    (sessionTick c1Machine).state.timeRemaining = 0 ∧
    (sessionTick c1Machine).state.isActive = false ∧
    (sessionTick c1Machine).state.isComplete = false ∧
    (sessionTick c1Machine).state.isGeneratingFeedback = false ∧
    (sessionTick c1Machine).feedbackRequests = 0 ∧
    (sessionTick c1Machine).ttsAll = [] := by
  decide

/-- Active session whose question clock stands at 37 seconds. -/
def c2Machine : Machine :=
  { initialMachine with
    state := { initialInterviewState with
      isActive := true,
      questionTimeLeft := 37,
      companyName := "Acme",
      roleName := "Backend Engineer",
      questions := generateInterviewQuestions "Acme" (some "Backend Engineer") },
    questionTimerRunning := true }

/-- Claim C2 is false on the code: pausing at 37 seconds left and resuming
yields a question clock of 60 (the fixed `QUESTION_DURATION`), not the
pre-pause value 37, because `resumeInterview` restarts the timer through
`startQuestionTimer`, which always resets the clock. -/
theorem pause_resume_resets_question_clock_counterexample :
    c2Machine.state.questionTimeLeft = 37 ∧
    (resumeInterview (pauseInterview c2Machine)).state.questionTimeLeft = 60 ∧
    (resumeInterview (pauseInterview c2Machine)).state.questionTimeLeft ≠
      c2Machine.state.questionTimeLeft := by
  decide

/-- Claim C2 as amended: pausing clears the question interval, so the
question clock does not decrement during the paused interval (the question
tick is a no-op on a paused machine); but resuming resets the clock to the
fixed `QUESTION_DURATION` regardless of its pre-pause value, rather than
continuing from it. -/
theorem pause_resume_question_clock_amended (m : Machine) :
    (pauseInterview m).state.questionTimeLeft = m.state.questionTimeLeft ∧
    (∀ now, questionTick now (pauseInterview m) = pauseInterview m) ∧
    (resumeInterview (pauseInterview m)).state.questionTimeLeft =
      QUESTION_DURATION := by
  refine ⟨rfl, fun now => ?_, rfl⟩
  simp [questionTick, pauseInterview]

/-- Claim C3: at every observation point (after any event) the responses
invariant holds - while the session is active, exactly one response has been
recorded per completed question - and the advance that exhausts the question
list (the only code path into `finishInterview` apart from an early
`endInterview`) leaves the session complete with exactly one response per
question. -/
theorem responses_track_question_index :
    (∀ (e : Event) (m : Machine),
      responsesInvariant m → responsesInvariant (step e m)) ∧
    (∀ (m : Machine) (timeRanOut : Bool) (now : Nat),
      responsesInvariant m →
      m.state.isActive = true →
      m.state.currentQuestionIndex + 1 = m.state.questions.length →
      (advanceToNextQuestion timeRanOut now m).state.isComplete = true ∧
      (advanceToNextQuestion timeRanOut now m).state.userResponses.length =
        m.state.questions.length ∧
      (advanceToNextQuestion timeRanOut now m).state.questions =
        m.state.questions) := by
  constructor
  · intro e m h
    cases e with
    | start c r now =>
      intro ha
      simp [step, startInterview, generateInterviewQuestions, machineTTSAdd,
        initialInterviewState]
    | sessionTickE =>
      simp only [step, sessionTick]
      split
      · exact finishAtZero_inv _ (sessionTickUpdate_inv m h)
      · exact h
    | questionTickE now =>
      simp only [step, questionTick]
      split
      · exact autoAdvance_inv _ _ (questionTickUpdate_inv m h)
      · exact h
    | userNext now =>
      simp only [step, nextQuestion]
      split
      · exact h
      · exact advance_inv _ _ _ h
    | pause =>
      intro ha
      simp [step, pauseInterview] at ha ⊢
      exact h ha
    | resume =>
      intro ha
      simp [step, resumeInterview, startQuestionTimer] at ha ⊢
      exact h ha
    | finishE =>
      exact finish_inv _
    | advanceTimeout =>
      simp only [step, advanceTimeoutFires]
      split
      · intro ha
        simp [startQuestionTimer] at ha ⊢
        exact h ha
      · exact h
    | startTimeout =>
      simp only [step, startTimeoutFires]
      split
      · intro ha
        simp [startQuestionTimer] at ha ⊢
        exact h ha
      · exact h
    | feedbackResolved fb =>
      intro ha
      simp [step, feedbackResolves] at ha ⊢
      exact h ha
    | feedbackFailed =>
      intro ha
      simp [step, feedbackFails] at ha ⊢
      exact h ha
    | ttsStarted =>
      intro ha
      simp [step, ttsOnStart] at ha ⊢
      exact h ha
    | ttsEnded now =>
      simp only [step, ttsOnEnd]
      refine autoAdvance_inv _ _ ?_
      intro ha
      simp at ha ⊢
      exact h ha
    | transcript t =>
      intro ha
      simp [step, transcriptFinal] at ha ⊢
      exact h ha
  · intro m timeRanOut now h ha hlast
    have hl := h ha
    simp only [advanceToNextQuestion]
    rw [if_pos (by omega)]
    refine ⟨by simp [finishInterview, machineTTSAdd], ?_,
      by simp [finishInterview, machineTTSAdd]⟩
    simp [finishInterview, machineTTSAdd]
    omega

/-- Active session standing at the last of its six questions with five
responses recorded. -/
def c3Machine : Machine :=
  { initialMachine with
    state := { initialInterviewState with
      isActive := true,
      currentQuestionIndex := 5,
      timeRemaining := 42,
      companyName := "Acme",
      roleName := "Backend Engineer",
      questions := generateInterviewQuestions "Acme" (some "Backend Engineer"),
      userResponses :=
        [ { questionId := "q1", response := "a" },
          { questionId := "q2", response := "b" },
          { questionId := "q3", response := "c" },
          { questionId := "q4", response := "d" },
          { questionId := "q5", response := "e" } ] },
    questionTimerRunning := true }

/-- Witness for claim C3 at a concrete machine: the invariant holds there,
is preserved by a pause event, and advancing past the last question
completes the session with one response per question. -/
theorem responses_track_question_index_witness :
    responsesInvariant c3Machine ∧
    responsesInvariant (step Event.pause c3Machine) ∧
    c3Machine.state.isActive = true ∧
    c3Machine.state.currentQuestionIndex + 1 = c3Machine.state.questions.length ∧
    (advanceToNextQuestion false 0 c3Machine).state.userResponses.length =
      c3Machine.state.questions.length := by
  refine ⟨by decide, responses_track_question_index.1 Event.pause c3Machine (by decide),
    by decide, by decide,
    (responses_track_question_index.2 c3Machine false 0 (by decide) (by decide)
      (by decide)).2.1⟩

/-- A machine whose advance guard is already set ignores `nextQuestion`. -/
theorem nextQuestion_noop_of_advancing (now : Nat) (m : Machine)
    (h : m.isAdvancing = true) : nextQuestion now m = m := by
  simp [nextQuestion, h]

/-- A machine whose advance guard is already set ignores the auto-advance
effect. -/
theorem autoAdvance_noop_of_advancing (now : Nat) (m : Machine)
    (h : m.isAdvancing = true) : autoAdvanceEffect now m = m := by
  simp [autoAdvanceEffect, h]

/-- Claim C4: with the guard clear and questions remaining, one
`nextQuestion` call records exactly one response and moves the index exactly
one forward; it leaves the in-flight guard set (only the later one-second
timeout clears it), so before the guard clears a second `nextQuestion` call
is a strict no-op and the racing question-timeout auto-advance is likewise a
no-op. -/
theorem advance_serialized_by_guard (m : Machine) (now now2 now3 : Nat)
    (hguard : m.isAdvancing = false)
    (hmore : m.state.currentQuestionIndex + 1 < m.state.questions.length) :
    (nextQuestion now m).state.userResponses.length =
      m.state.userResponses.length + 1 ∧
    (nextQuestion now m).state.currentQuestionIndex =
      m.state.currentQuestionIndex + 1 ∧
    nextQuestion now2 (nextQuestion now m) = nextQuestion now m ∧
    autoAdvanceEffect now3 (nextQuestion now m) = nextQuestion now m := by
  have hnq : nextQuestion now m =
      advanceToNextQuestion false now { m with isAdvancing := true } := by
    simp [nextQuestion, hguard]
  have hset : (nextQuestion now m).isAdvancing = true := by
    rw [hnq, advance_isAdvancing]
  have hfacts := advance_not_last_facts false now { m with isAdvancing := true } hmore
  refine ⟨?_, ?_, nextQuestion_noop_of_advancing now2 _ hset,
    autoAdvance_noop_of_advancing now3 _ hset⟩
  · rw [hnq]
    exact hfacts.1
  · rw [hnq]
    exact hfacts.2.1

/-- Active session at its first question with the guard clear. -/
def c4Machine : Machine :=
  { initialMachine with
    state := { initialInterviewState with
      isActive := true,
      companyName := "Acme",
      roleName := "Backend Engineer",
      questions := generateInterviewQuestions "Acme" (some "Backend Engineer") },
    questionTimerRunning := true }

/-- Witness for claim C4 at a concrete machine: guard clear, questions
remaining, and the double invocation is a no-op recording a single
response. -/
theorem advance_serialized_by_guard_witness :
    c4Machine.isAdvancing = false ∧
    c4Machine.state.currentQuestionIndex + 1 < c4Machine.state.questions.length ∧
    (nextQuestion 0 c4Machine).state.userResponses.length =
      c4Machine.state.userResponses.length + 1 ∧
    nextQuestion 1 (nextQuestion 0 c4Machine) = nextQuestion 0 c4Machine := by
  refine ⟨by decide, by decide,
    (advance_serialized_by_guard c4Machine 0 1 2 (by decide) (by decide)).1,
    (advance_serialized_by_guard c4Machine 0 1 2 (by decide) (by decide)).2.2.1⟩

/-- Active two-question session used to exhibit the double-finish
behaviour. -/
def c5BaseMachine : Machine :=
  { initialMachine with
    state := { initialInterviewState with
      isActive := true,
      companyName := "Acme",
      roleName := "Backend Engineer",
      questions := generateInterviewQuestions "Acme" (some "Backend Engineer") },
    questionTimerRunning := true }

/-- A completed session: finished once, with the feedback promise already
resolved (stored feedback, generating flag cleared). -/
def c5CompletedMachine : Machine :=
  feedbackResolves (getDefaultFeedback ⟨"Acme", "Backend Engineer", [], []⟩)
    (finishInterview c5BaseMachine)

/-- Claim C5 is false on the code: `finishInterview` has no completion
guard, so calling it again on an already-complete session (here with
feedback already stored and the generating flag back at false) enqueues the
conclusion utterance a second time, re-enters the generating-feedback state
and issues a second feedback request. -/
theorem double_finish_not_noop_counterexample :
    c5CompletedMachine.state.isComplete = true ∧
    c5CompletedMachine.state.isGeneratingFeedback = false ∧
    c5CompletedMachine.feedbackRequests = 1 ∧
    c5CompletedMachine.ttsAll.length = 1 ∧
    (finishInterview c5CompletedMachine).ttsAll.length = 2 ∧
    (finishInterview c5CompletedMachine).feedbackRequests = 2 ∧
    (finishInterview c5CompletedMachine).state.isGeneratingFeedback = true ∧
    finishInterview c5CompletedMachine ≠ c5CompletedMachine := by
  refine ⟨by decide, by decide, by decide, by decide, by decide, by decide, by decide, ?_⟩
  intro h
  have := congrArg Machine.feedbackRequests h
  revert this
  decide

/-- Claim C5 as amended: a second `finishInterview` (or `endInterview`) on
an already-complete session does not crash and cannot revert the status -
the session stays Complete and inactive with its responses untouched - but
it is a re-execution rather than a no-op: it enqueues the conclusion
utterance again, sets the generating-feedback flag again and issues one
more feedback request. -/
theorem double_finish_reexecutes (m : Machine) (_h : m.state.isComplete = true) :
    (finishInterview m).state.isComplete = true ∧
    (finishInterview m).state.isActive = false ∧
    (finishInterview m).state.userResponses = m.state.userResponses ∧
    (finishInterview m).ttsAll = m.ttsAll ++ [CONCLUSION_TEXT] ∧
    (finishInterview m).feedbackRequests = m.feedbackRequests + 1 ∧
    (finishInterview m).state.isGeneratingFeedback = true ∧
    endInterview m = finishInterview m := by
  refine ⟨by simp [finishInterview, machineTTSAdd], by simp [finishInterview, machineTTSAdd],
    by simp [finishInterview, machineTTSAdd], by simp [finishInterview, machineTTSAdd],
    by simp [finishInterview, machineTTSAdd], by simp [finishInterview, machineTTSAdd], rfl⟩

/-- Witness for the amended claim C5 at the concrete completed session. -/
theorem double_finish_reexecutes_witness :
    c5CompletedMachine.state.isComplete = true ∧
    (finishInterview c5CompletedMachine).feedbackRequests =
      c5CompletedMachine.feedbackRequests + 1 := by
  exact ⟨by decide, (double_finish_reexecutes c5CompletedMachine (by decide)).2.2.2.2.1⟩

/-- Feedback context of a one-question session. -/
def c6Ctx : FeedbackContext :=
  { companyName := "Acme",
    roleName := "Software Engineer",
    questions := ["Tell me about yourself."],
    responses := [] }

/-- Claim C6 is false on the code: the backend output "5" is syntactically
valid JSON, so `JSON.parse` succeeds and the unchecked `as InterviewFeedback`
cast returns the bare number as the feedback; it is not a well-formed
structured feedback object, yet the deterministic fallback is not used. -/
theorem feedback_not_validated_counterexample :
    generateInterviewFeedback (GroqResult.ok (some "5")) c6Ctx =
      FeedbackOutcome.unvalidated (JsonValue.num 5) ∧
    specWellFormedFeedback (JsonValue.num 5) = false ∧
    FeedbackOutcome.unvalidated (JsonValue.num 5) ≠
      FeedbackOutcome.structured (getDefaultFeedback c6Ctx) := by
  exact ⟨by rfl, by decide, fun h => FeedbackOutcome.noConfusion h⟩

/-- Claim C6 as amended: `generateInterviewFeedback` strips markdown code
fences and trims the backend output, and yields the deterministic fallback
whenever the cleaned output fails to parse as JSON (and when the output is
missing or empty, whose cleaned form is the unparseable empty string); but
any output that parses as a JSON value - well-formed feedback structure or
not - is returned as the feedback without structural validation. -/
theorem feedback_parse_only_amended (ctx : FeedbackContext) (content : String) :
    (parseJson (cleanFeedbackContent (jsTrim content)) = none →
      generateInterviewFeedback (GroqResult.ok (some content)) ctx =
        FeedbackOutcome.structured (getDefaultFeedback ctx)) ∧
    (∀ j, parseJson (cleanFeedbackContent (jsTrim content)) = some j →
      generateInterviewFeedback (GroqResult.ok (some content)) ctx =
        FeedbackOutcome.unvalidated j) ∧
    generateInterviewFeedback
        (GroqResult.ok (some ("```json\n\x7b\x7d\n```"))) ctx =
      FeedbackOutcome.unvalidated (JsonValue.obj []) := by
  by_cases hc : jsTrim content = ""
  · refine ⟨fun _ => by simp [generateInterviewFeedback, hc], fun j hj => ?_, by rfl⟩
    rw [hc] at hj
    have hnone : parseJson (cleanFeedbackContent "") = none := by rfl
    rw [hnone] at hj
    exact Option.noConfusion hj
  · refine ⟨fun hnone => ?_, fun j hj => ?_, by rfl⟩
    · simp [generateInterviewFeedback, hc, hnone]
    · simp [generateInterviewFeedback, hc, hj]

/-- Witness for the amended claim C6: the plain-text output "hello" fails to
parse and yields the fallback. -/
theorem feedback_parse_only_amended_witness :
    parseJson (cleanFeedbackContent (jsTrim "hello")) = none ∧
    generateInterviewFeedback (GroqResult.ok (some "hello")) c6Ctx =
      FeedbackOutcome.structured (getDefaultFeedback c6Ctx) := by
  exact ⟨by rfl, (feedback_parse_only_amended c6Ctx "hello").1 (by rfl)⟩

/-- Placeholder entry used as the out-of-range default for `List.getD` on
feedback entries. -/
def dummyEntry : FeedbackEntry :=
  { question := "", userResponse := "", feedback := "" }

/-- The fallback produces one feedback entry per question. -/
theorem defaultQF_length (rs : List String) (i : Nat) (qs : List String) :
    (defaultQuestionFeedback rs i qs).length = qs.length := by
  induction qs generalizing i with
  | nil => rfl
  | cons q qs ih => simp [defaultQuestionFeedback, ih]

/-- Entry `k` of the fallback's per-question list pairs question `k` with
the recorded response at the same absolute index. -/
theorem defaultQF_getD (rs : List String) (i k : Nat) (qs : List String)
    (h : k < qs.length) :
    (defaultQuestionFeedback rs i qs).getD k dummyEntry =
      { question := qs.getD k "",
        userResponse := defaultEntryResponse rs (i + k),
        feedback := DEFAULT_QF_TEXT } := by
  induction qs generalizing i k with
  | nil => simp at h
  | cons q qs ih =>
    cases k with
    | zero => simp [defaultQuestionFeedback]
    | succ k =>
      have hk : k < qs.length := by simpa using h
      have := ih (i + 1) k hk
      simp only [defaultQuestionFeedback, List.getD_cons_succ, this]
      have harith : i + 1 + k = i + (k + 1) := by omega
      rw [harith]

/-- Claim C7: every failing feedback call (missing key, non-2xx response,
network error, missing or empty content, unparseable payload) produces the
deterministic fallback report, whose `questionFeedback` has exactly one
entry per question, entry `i` carrying question `i` and the recorded
response for question `i`, or the no-response marker when that response is
empty or missing. -/
theorem feedback_failure_fallback_shape (result : GroqResult)
    (ctx : FeedbackContext) (h : feedbackCallFailed result = true) :
    generateInterviewFeedback result ctx =
      FeedbackOutcome.structured (getDefaultFeedback ctx) ∧
    (getDefaultFeedback ctx).questionFeedback.length = ctx.questions.length ∧
    ∀ i, i < ctx.questions.length →
      ((getDefaultFeedback ctx).questionFeedback.getD i dummyEntry).question =
        ctx.questions.getD i "" ∧
      ((getDefaultFeedback ctx).questionFeedback.getD i dummyEntry).userResponse =
        (if ctx.responses.getD i "" = "" then NO_RESPONSE_MARKER
          else ctx.responses.getD i "") := by
  refine ⟨?_, ?_, ?_⟩
  · cases result with
    | noApiKey => rfl
    | httpError body => rfl
    | networkError => rfl
    | ok content =>
      cases content with
      | none => rfl
      | some raw =>
        simp only [feedbackCallFailed, Bool.or_eq_true, beq_iff_eq,
          Option.isNone_iff_eq_none] at h
        by_cases hc : jsTrim raw = ""
        · simp [generateInterviewFeedback, hc]
        · have hnone : parseJson (cleanFeedbackContent (jsTrim raw)) = none := by
            rcases h with h | h
            · exact absurd h hc
            · exact h
          simp [generateInterviewFeedback, hc, hnone]
  · simp [getDefaultFeedback, defaultQF_length]
  · intro i hi
    have := defaultQF_getD ctx.responses 0 i ctx.questions hi
    simp only [getDefaultFeedback, this, Nat.zero_add]
    constructor
    · trivial
    · simp [defaultEntryResponse]

/-- Feedback context of a two-question session with one answer recorded and
one empty. -/
def c7Ctx : FeedbackContext :=
  { companyName := "Acme",
    roleName := "Backend Engineer",
    questions := ["Tell me about yourself.", "Describe a hard bug."],
    responses := ["I am a backend engineer.", ""] }

/-- Witness for claim C7: a missing API key yields the fallback, with one
entry per question, the recorded answer on entry 0 and the no-response
marker on entry 1. -/
theorem feedback_failure_fallback_shape_witness :
    feedbackCallFailed GroqResult.noApiKey = true ∧
    generateInterviewFeedback GroqResult.noApiKey c7Ctx =
      FeedbackOutcome.structured (getDefaultFeedback c7Ctx) ∧
    ((getDefaultFeedback c7Ctx).questionFeedback.getD 1 dummyEntry).userResponse =
      NO_RESPONSE_MARKER := by
  refine ⟨by decide, (feedback_failure_fallback_shape GroqResult.noApiKey c7Ctx (by decide)).1, ?_⟩
  have h := ((feedback_failure_fallback_shape GroqResult.noApiKey c7Ctx (by decide)).2.2 1
    (by decide)).2
  simpa using h

/-- Placeholder question used as the out-of-range default for `List.getD`. -/
def dummyQuestion : InterviewQuestion :=
  { id := "", type := QType.intro, question := "", followUp := none }

/-- Machine right after `startInterview` on a freshly mounted hook. -/
def startedMachine (company role : String) (now : Nat) : Machine :=
  startInterview company (some role) now initialMachine

/-- The introductory utterance opens with the welcome phrase. -/
theorem introUtterance_starts_with_welcome (company role q0 : String) :
    ∃ rest, introUtterance company role q0 = "Welcome!" ++ rest := by
  refine ⟨" I\x27m your AI interviewer for the " ++ (role ++ (" position at " ++ (company ++
    (". We\x27ll have about 60 seconds per question, so take your time to answer. Let\x27s begin. " ++
      q0)))), ?_⟩
  rw [introUtterance]
  simp only [String.append_assoc]
  rw [(by decide : ("Welcome! I\x27m your AI interviewer for the " : String) =
    "Welcome!" ++ " I\x27m your AI interviewer for the "), String.append_assoc]

/-- The introductory utterance ends with the text of the first question. -/
theorem introUtterance_ends_with_question (company role q0 : String) :
    ∃ pre, introUtterance company role q0 = pre ++ q0 := by
  exact ⟨"Welcome! I\x27m your AI interviewer for the " ++ role ++ " position at " ++ company ++
    ". We\x27ll have about 60 seconds per question, so take your time to answer. Let\x27s begin. ",
    rfl⟩

/-- Claim C8: starting an interview for any company and (non-empty) role
produces the six fixed questions with types intro, technical, behavioral,
situational, behavioral, closing in that order, a 300-second session clock,
a question clock at the fixed `QUESTION_DURATION`, and a single queued
utterance that opens with the welcome phrase and ends with the text of
question 1. -/
theorem startInterview_scenario (company role : String) (now : Nat)
    (h : role ≠ "") :
    (startedMachine company role now).state.questions.map (fun q => q.type) =
      [QType.intro, QType.technical, QType.behavioral, QType.situational,
        QType.behavioral, QType.closing] ∧
    (startedMachine company role now).state.timeRemaining = 300 ∧
    (startedMachine company role now).state.questionTimeLeft = QUESTION_DURATION ∧
    (startedMachine company role now).ttsQueued =
      [introUtterance company role
        ((startedMachine company role now).state.questions.getD 0
          dummyQuestion).question] ∧
    (∃ rest, introUtterance company role
        ((startedMachine company role now).state.questions.getD 0
          dummyQuestion).question =
      "Welcome!" ++ rest) ∧
    (∃ pre, introUtterance company role
        ((startedMachine company role now).state.questions.getD 0
          dummyQuestion).question =
      pre ++ ((startedMachine company role now).state.questions.getD 0
          dummyQuestion).question) := by
  refine ⟨?_, ?_, ?_, ?_, introUtterance_starts_with_welcome company role _,
    introUtterance_ends_with_question company role _⟩
  · simp [startedMachine, startInterview, generateInterviewQuestions, machineTTSAdd,
      initialInterviewState, initialMachine, h]
  · simp [startedMachine, startInterview, generateInterviewQuestions, machineTTSAdd,
      initialInterviewState, initialMachine, h, INTERVIEW_DURATION]
  · simp [startedMachine, startInterview, generateInterviewQuestions, machineTTSAdd,
      initialInterviewState, initialMachine, h]
  · simp [startedMachine, startInterview, generateInterviewQuestions, machineTTSAdd,
      initialInterviewState, initialMachine, h]

/-- Witness for claim C8 at a concrete company and role. -/
theorem startInterview_scenario_witness :
    ("Backend Engineer" : String) ≠ "" ∧
    (startedMachine "Acme" "Backend Engineer" 0).state.timeRemaining = 300 ∧
    (startedMachine "Acme" "Backend Engineer" 0).state.questions.map
        (fun q => q.type) =
      [QType.intro, QType.technical, QType.behavioral, QType.situational,
        QType.behavioral, QType.closing] := by
  refine ⟨by decide,
    (startInterview_scenario "Acme" "Backend Engineer" 0 (by decide)).2.1,
    (startInterview_scenario "Acme" "Backend Engineer" 0 (by decide)).1⟩

/-- Claim C10: starting an interview with the role omitted - or given as the
empty string, which JavaScript treats as falsy - sets the session role to
the default "Software Engineer", and the generated question texts (questions
1 and 6 name the role) reference that default. -/
theorem startInterview_default_role (company : String) (now : Nat) :
    (startInterview company none now initialMachine).state.roleName =
      "Software Engineer" ∧
    (startInterview company (some "") now initialMachine).state.roleName =
      "Software Engineer" ∧
    (startInterview company none now initialMachine).state.questions =
      generateInterviewQuestions company (some "Software Engineer") ∧
    (∃ p s, ((startInterview company none now initialMachine).state.questions.getD 0
        dummyQuestion).question = p ++ "Software Engineer" ++ s) ∧
    (∃ p s, ((startInterview company none now initialMachine).state.questions.getD 5
        dummyQuestion).question = p ++ "Software Engineer" ++ s) := by
  have hq : (startInterview company none now initialMachine).state.questions =
      generateInterviewQuestions company none := by
    simp [startInterview, generateInterviewQuestions, machineTTSAdd,
      initialInterviewState, initialMachine]
  refine ⟨?_, ?_, ?_, ?_, ?_⟩
  · simp [startInterview, generateInterviewQuestions, machineTTSAdd,
      initialInterviewState, initialMachine]
  · simp [startInterview, generateInterviewQuestions, machineTTSAdd,
      initialInterviewState, initialMachine]
  · simp [startInterview, generateInterviewQuestions, machineTTSAdd,
      initialInterviewState, initialMachine]
  · rw [hq]
    refine ⟨"Hi! Welcome to your mock interview for " ++ company ++
      ". Let\x27s start with a quick introduction. Tell me about yourself and why you\x27re interested in the ",
      " position at " ++ company ++ ".", ?_⟩
    simp only [generateInterviewQuestions, List.getD]
    simp only [String.append_assoc]
    rfl
  · rw [hq]
    refine ⟨"We\x27re almost at the end. Do you have any questions about the ",
      " position or " ++ company ++ "?", ?_⟩
    simp only [generateInterviewQuestions, List.getD]
    simp only [String.append_assoc]
    rfl

/-- The playback loop attempts every queued text in order, whatever each
attempt's outcome (a failure is caught and the loop continues). -/
theorem processQueueLoop_attempts_all (ok : String → Bool) (texts : List String) :
    attemptedTexts (processQueueLoop ok texts) = texts := by
  induction texts with
  | nil => rfl
  | cons t rest ih =>
    by_cases h : ok t = true <;> simp [processQueueLoop, h, attemptedTexts, ih]

/-- Only playback attempts contribute attempted texts. -/
theorem attemptedTexts_append (a b : List TTSEvent) :
    attemptedTexts (a ++ b) = attemptedTexts a ++ attemptedTexts b := by
  induction a with
  | nil => rfl
  | cons e rest ih => cases e <;> simp [attemptedTexts, ih]

/-- Claim C9: a burst over any non-empty queue plays sequentially in
submission order - the attempted texts are exactly the queued texts, in
order, for every assignment of per-item success or failure, so one item
failing never halts the queue - with `onStart` notified first, `onEnd`
notified last, and the queue left empty and idle. -/
theorem tts_queue_burst (ok : String → Bool) (texts : List String)
    (h : texts ≠ []) :
    attemptedTexts (processQueue ok { queue := texts, isPlaying := false }).2 =
      texts ∧
    (processQueue ok { queue := texts, isPlaying := false }).2.head? =
      some TTSEvent.started ∧
    (processQueue ok { queue := texts, isPlaying := false }).2.getLast? =
      some TTSEvent.ended ∧
    (processQueue ok { queue := texts, isPlaying := false }).1 =
      { queue := [], isPlaying := false } := by
  have hne : (texts.isEmpty) = false := by
    cases texts with
    | nil => exact absurd rfl h
    | cons t rest => rfl
  refine ⟨?_, ?_, ?_, ?_⟩
  · simp [processQueue, hne, attemptedTexts, attemptedTexts_append,
      processQueueLoop_attempts_all]
  · simp [processQueue, hne]
  · simp only [processQueue, hne, Bool.false_eq_true, if_false]
    show ((TTSEvent.started :: processQueueLoop ok texts) ++
      [TTSEvent.ended]).getLast? = some TTSEvent.ended
    exact List.getLast?_concat _
  · simp [processQueue, hne]

/-- Witness for claim C9: a two-item burst whose second item fails still
attempts both items in order. -/
theorem tts_queue_burst_witness :
    (["first line", "second line"] : List String) ≠ [] ∧
    attemptedTexts
        (processQueue (fun t => t == "first line")
          { queue := ["first line", "second line"], isPlaying := false }).2 =
      ["first line", "second line"] := by
  exact ⟨by decide,
    (tts_queue_burst (fun t => t == "first line") ["first line", "second line"]
      (by decide)).1⟩
